import Mathlib

/-!
Verification of the upbit riser-monitor program (src/monitor.py).

The program is a single short-lived invocation: it optionally sends a one-time
welcome message (guarded by a marker file), scans exchange tickers for
instruments whose percentage change is at least 5, accumulates newly detected
symbols into a JSON snapshot file, and — when the wall-clock minute is below
15 — sends a consolidated report and resets the snapshot.

The embedding below translates the Python source function by function:

* `load_snapshot` / `save_snapshot` (monitor.py lines 18-35) over an explicit
  model `FileState` of the snapshot file's condition on disk, with Python
  exception semantics made explicit (`PyExc`): the `except` clause of
  `load_snapshot` catches only `json.JSONDecodeError` and `IOError`, so a
  `TypeError` raised by `set()` on a non-iterable JSON value, or a
  `UnicodeDecodeError` raised while reading non-UTF-8 bytes, propagates.
* the scan loop of `main` (lines 75-92) as a fold `scanSets` over the fetched
  ticker list, with the threshold test `isRiser` (line 82),
* the scan stage including its try/except and conditional persistence
  (lines 70-96) as `scanStage`,
* the report stage (lines 98-113) as `reportStage`,
* the whole of `main` after credential validation (lines 59-113) as `mainRun`.

Modelling notes, stated once here: disk writes are assumed to succeed (the
source logs and drops `IOError` on write; claims quantify over send outcomes,
not disk-write outcomes); Python's `list(set)` enumeration order is
unspecified, so where the source serialises a set we serialise its sorted
list — every claim about file contents is about the set they denote;
`logging` calls are modelled only where a claim mentions them, as the
error-log string lists `load_snapshot_logs` and `StageOut.errLogs`;
`telegram` sends never raise (send_telegram_message catches every exception,
lines 37-43), so a per-message delivery outcome `sendOk` can be threaded
through without influencing control flow.
-/

namespace Monitor

/-- Python exceptions that the snapshot code can encounter. -/
inductive PyExc
  | IOError
  | JSONDecodeError
  | UnicodeDecodeError
  | TypeError
  deriving DecidableEq, Repr

/-- Condition of the snapshot file on disk.  `jsonArray l` is the normal case:
the file holds a JSON array of strings.  `jsonNonIterable` is a file holding
valid JSON that is not iterable (a number, boolean or null); `invalidUtf8` is
a file whose bytes do not decode as UTF-8; `invalidJson` is decodable text
that fails JSON parsing; `ioError` is a present but unreadable file.  Other
iterable JSON values (strings, objects, mixed arrays) are omitted: no claim
depends on them and they add nothing to the analysis. -/
inductive FileState
  | absent
  | ioError
  | invalidJson
  | invalidUtf8
  | jsonNonIterable
  | jsonArray (l : List String)
  deriving DecidableEq, Repr

/-- Value produced by a successful `json.load`, at the granularity the claims
need: an array of strings, or a non-iterable value. -/
inductive PyValue
  | strArray (l : List String)
  | nonIterable
  deriving DecidableEq, Repr

/-- Semantics of `open(SNAPSHOT_FILE) ; json.load(f)` on a file in the given
state.  Reading an unreadable file raises `IOError`; reading bytes that are
not UTF-8 raises `UnicodeDecodeError` (a `ValueError`, but not a
`json.JSONDecodeError`); text that fails JSON parsing raises
`JSONDecodeError`.  An absent file raises `FileNotFoundError`, an `IOError`
(the caller checks existence first, so this branch is unreachable there). -/
def openAndJsonLoad : FileState → Except PyExc PyValue
  | .absent => .error .IOError
  | .ioError => .error .IOError
  | .invalidUtf8 => .error .UnicodeDecodeError
  | .invalidJson => .error .JSONDecodeError
  | .jsonNonIterable => .ok .nonIterable
  | .jsonArray l => .ok (.strArray l)

/-- Semantics of Python `set(v)`: builds the set of elements of an iterable,
raises `TypeError` on a non-iterable value. -/
def pySet : PyValue → Except PyExc (Finset String)
  | .strArray l => .ok l.toFinset
  | .nonIterable => .error .TypeError

/-- Outcome of calling `load_snapshot()`: a normal return of a set of symbols,
or an exception propagating to the caller. -/
inductive LoadOutcome
  | ok (s : Finset String)
  | raised (e : PyExc)
  deriving DecidableEq

/-- Exceptions named in `except (json.JSONDecodeError, IOError)` of
`load_snapshot` (monitor.py line 25). -/
def caughtInLoad : PyExc → Bool
  | .JSONDecodeError => true
  | .IOError => true
  | .UnicodeDecodeError => false
  | .TypeError => false

/-- Translation of `load_snapshot` (monitor.py lines 18-27): return the empty
set if the file does not exist; otherwise run `set(json.load(f))` under a
handler that catches only `JSONDecodeError` and `IOError` and returns the
empty set; any other exception propagates. -/
def load_snapshot (fs : FileState) : LoadOutcome :=
  if fs = .absent then .ok ∅
  else
    match openAndJsonLoad fs >>= pySet with
    | .ok s => .ok s
    | .error e => if caughtInLoad e then .ok ∅ else .raised e

/-- Representative rendering of Python `str(e)` for each exception, used only
to build log and alert strings; no claim depends on the exact text. -/
def excMsg : PyExc → String
  | .IOError => "IOError while accessing snapshot_coins.json"
  | .JSONDecodeError => "Expecting value: line 1 column 1 (char 0)"
  | .UnicodeDecodeError => "UnicodeDecodeError: invalid start byte"
  | .TypeError => "TypeError: object is not iterable"

/-- Error-log lines emitted by `load_snapshot` (monitor.py line 26): the
caught exceptions are logged before returning the empty set; a propagating
exception is not logged by `load_snapshot` itself. -/
def load_snapshot_logs (fs : FileState) : List String :=
  if fs = .absent then []
  else
    match openAndJsonLoad fs >>= pySet with
    | .ok _ => []
    | .error e =>
        if caughtInLoad e then ["스냅샷 파일 로딩 실패: " ++ excMsg e] else []

/-- Translation of `save_snapshot` (monitor.py lines 29-35): `json.dump` of a
list of symbols overwrites the file with a JSON array of strings.  The
argument is the list that `list(symbols)` produced. -/
def save_snapshot (l : List String) : FileState :=
  .jsonArray l

/-- Threshold test of monitor.py line 82:
`ticker.get('percentage') is not None and ticker['percentage'] >= 5`. -/
def isRiser : Option ℚ → Bool
  | none => false
  | some q => decide (5 ≤ q)

/-- Fetched ticker data: one `(symbol, percentage)` pair per instrument, the
percentage possibly absent. -/
abbrev Tickers := List (String × Option ℚ)

/-- Body of the scan loop (monitor.py lines 81-86) for one ticker: a riser not
in the previous snapshot is added to both the current snapshot and the
newly-detected set; note the membership test is against `previous_snapshot`,
not the accumulating copy. -/
def scanStep (prev : Finset String) (acc : Finset String × Finset String)
    (t : String × Option ℚ) : Finset String × Finset String :=
  if isRiser t.2 ∧ t.1 ∉ prev then (insert t.1 acc.1, insert t.1 acc.2) else acc

/-- The scan loop of monitor.py lines 75-86: starting from
`current_snapshot = set(previous_snapshot)` and `newly_detected = set()`,
fold `scanStep` over the fetched tickers; returns
`(current_snapshot, newly_detected)`. -/
def scanSets (prev : Finset String) (T : Tickers) :
    Finset String × Finset String :=
  T.foldl (scanStep prev) (prev, ∅)

/-- The set of symbols the scan's threshold test accepts in a ticker list. -/
def risersOf (T : Tickers) : Finset String :=
  ((T.filter (fun t => isRiser t.2)).map Prod.fst).toFinset

theorem risersOf_nil : risersOf [] = ∅ := rfl

theorem risersOf_cons (t : String × Option ℚ) (T : Tickers) :
    risersOf (t :: T) =
      if isRiser t.2 then insert t.1 (risersOf T) else risersOf T := by
  unfold risersOf
  cases h : isRiser t.2 <;> simp [List.filter_cons, h]

theorem foldl_scanStep (prev : Finset String) (T : Tickers) :
    ∀ c n : Finset String,
      T.foldl (scanStep prev) (c, n) =
        (c ∪ (risersOf T \ prev), n ∪ (risersOf T \ prev)) := by
  induction T with
  | nil => intro c n; simp [risersOf_nil]
  | cons t T ih =>
    intro c n
    rw [List.foldl_cons]
    by_cases hr : (isRiser t.2 : Prop)
    · by_cases hm : t.1 ∈ prev
      · have hstep : scanStep prev (c, n) t = (c, n) := by
          simp [scanStep, hm]
        rw [hstep, ih, risersOf_cons, if_pos hr,
          Finset.insert_sdiff_of_mem _ hm]
      · have hstep : scanStep prev (c, n) t = (insert t.1 c, insert t.1 n) := by
          simp [scanStep, hr, hm]
        rw [hstep, ih, risersOf_cons, if_pos hr,
          Finset.insert_sdiff_of_not_mem _ hm, Finset.union_insert,
          Finset.union_insert, Finset.insert_union, Finset.insert_union]
    · have hstep : scanStep prev (c, n) t = (c, n) := by
        simp [scanStep, hr]
      rw [hstep, ih, risersOf_cons, if_neg hr]

/-- Characterisation of the scan loop: the updated snapshot is the previous
one united with the risers, and the newly-detected set is the risers minus
the previous snapshot. -/
theorem scanSets_eq (prev : Finset String) (T : Tickers) :
    scanSets prev T = (prev ∪ risersOf T, risersOf T \ prev) := by
  unfold scanSets
  rw [foldl_scanStep]
  simp [Finset.union_sdiff_self_eq_union]

/-- Literal of monitor.py line 62: the one-time welcome message. -/
def welcomeMessage : String :=
  "🎉 업비트 모니터링 봇이 시작되었습니다.\n정상적으로 연결되었습니다!"

/-- Report text of monitor.py lines 105-106: a header naming the hour,
followed by the snapshot's symbols sorted ascending, one per line. -/
def reportMessage (hour : Nat) (snap : Finset String) : String :=
  "지난 1시간 동안 5% 이상 상승을 기록한 종목 목록 (" ++ toString hour
    ++ "시 기준)\n" ++ String.intercalate "\n" (snap.sort (fun a b => a ≤ b))

/-- Alert text of monitor.py line 96, sent when the scan stage fails. -/
def scanAlert (description : String) : String :=
  "오류 발생: " ++ description

/-- Error-log line of monitor.py line 95. -/
def scanErrLog (description : String) : String :=
  "종목 스캔 중 오류 발생: " ++ description

/-- Outcome of the exchange fetch (monitor.py lines 71-73,
`load_markets` / `fetch_tickers`): either the filtered ticker map as a list of
`(symbol, percentage)` pairs, or an exception carrying a description. -/
inductive FetchOutcome
  | ok (T : Tickers)
  | err (description : String)
  deriving DecidableEq

/-- Result of the scan stage: the snapshot file afterwards, the messages the
stage attempted to send, whether it wrote the snapshot file, and the
error-log lines it emitted. -/
structure StageOut where
  snapFile : FileState
  sent : List String
  wrote : Bool
  errLogs : List String
  deriving DecidableEq

/-- Translation of the scan stage, monitor.py lines 70-96 (the first
`try`/`except` of `main`).  A fetch failure is caught before the snapshot is
touched.  Otherwise the previous snapshot is loaded — an exception escaping
`load_snapshot` is caught by this stage's `except Exception` — the tickers are
scanned, and the updated snapshot is persisted only when at least one new
symbol was detected.  Either failure sends the alert of line 96 and leaves the
file untouched. -/
def scanStage (fs : FileState) : FetchOutcome → StageOut
  | .err m => ⟨fs, [scanAlert m], false, [scanErrLog m]⟩
  | .ok T =>
    match load_snapshot fs with
    | .raised e =>
        ⟨fs, [scanAlert (excMsg e)], false,
          load_snapshot_logs fs ++ [scanErrLog (excMsg e)]⟩
    | .ok prev =>
        let cn := scanSets prev T
        if cn.2 = ∅ then ⟨fs, [], false, load_snapshot_logs fs⟩
        else
          ⟨save_snapshot (cn.1.sort (fun a b => a ≤ b)), [], true,
            load_snapshot_logs fs⟩

/-- Result of the report stage: the snapshot file afterwards, messages
attempted, whether the file was written, whether the stage's body (the
`minute < 15` branch) ran, and whether an uncaught exception escaped `main`
(the reload of line 101 sits outside any `try`). -/
structure ReportOut where
  snapFile : FileState
  sent : List String
  wrote : Bool
  ran : Bool
  crashed : Bool
  deriving DecidableEq

/-- Translation of the report stage, monitor.py lines 98-113.  When the
wall-clock minute is below 15 the snapshot is re-loaded; if it is non-empty a
report is composed and sent and the snapshot file is reset to the empty
array, otherwise nothing is written.  A `load_snapshot` exception here is
uncaught: `main` terminates at that point. -/
def reportStage (fs : FileState) (minute hour : Nat) : ReportOut :=
  if minute < 15 then
    match load_snapshot fs with
    | .raised _ => ⟨fs, [], false, true, true⟩
    | .ok snap =>
        if snap = ∅ then ⟨fs, [], false, true, false⟩
        else
          ⟨save_snapshot [], [reportMessage hour snap], true, true, false⟩
  else ⟨fs, [], false, false, false⟩

/-- Observable result of one invocation of `main` after credential
validation: final snapshot file, marker-file state, the messages attempted in
order, their per-message delivery outcomes (parallel to `sent`; delivery
failure is swallowed by `send_telegram_message`, so it influences nothing
else), write/ran/crash flags, and the error-log lines. -/
structure InvResult where
  snapFile : FileState
  firstRunDone : Bool
  sent : List String
  delivered : List Bool
  scanWrote : Bool
  reportWrote : Bool
  reportRan : Bool
  crashed : Bool
  errLogs : List String
  deriving DecidableEq

/-- Translation of `main` after credential validation, monitor.py lines
59-113: the first-run welcome block (lines 59-67, which also creates the
marker file), then the scan stage, then the report stage on the file state
the scan left behind.  `firstRunDone` is the prior existence of
`.first_run_complete`; `sendOk i` is the delivery outcome of the i-th message
attempted. -/
def mainRun (firstRunDone : Bool) (fetch : FetchOutcome) (fs : FileState)
    (minute hour : Nat) (sendOk : Nat → Bool) : InvResult :=
  let welcome : List String := if firstRunDone then [] else [welcomeMessage]
  let s := scanStage fs fetch
  let r := reportStage s.snapFile minute hour
  let msgs := welcome ++ s.sent ++ r.sent
  { snapFile := r.snapFile
    firstRunDone := true
    sent := msgs
    delivered := (List.range msgs.length).map sendOk
    scanWrote := s.wrote
    reportWrote := r.wrote
    reportRan := r.ran
    crashed := r.crashed
    errLogs := s.errLogs }

theorem reportStage_ran (fs : FileState) (minute hour : Nat) :
    (reportStage fs minute hour).ran = decide (minute < 15) := by
  unfold reportStage
  by_cases h : minute < 15
  · rw [if_pos h]
    cases load_snapshot fs with
    | raised e => simp [h]
    | ok snap => by_cases hs : snap = ∅ <;> simp [hs, h]
  · simp [h]

/-- C1: the reporting stage runs if and only if the minute-of-hour of the
current wall-clock time is strictly less than 15; an invocation at minute 14
is a reporting invocation and an invocation at minute 15 is not. -/
theorem c1_report_trigger :
    (∀ (frd : Bool) (fetch : FetchOutcome) (fs : FileState)
        (minute hour : Nat) (sendOk : Nat → Bool),
        ((mainRun frd fetch fs minute hour sendOk).reportRan = true ↔
          minute < 15)) ∧
    (mainRun true (.ok []) .absent 14 0 (fun _ => true)).reportRan = true ∧
    (mainRun true (.ok []) .absent 15 0 (fun _ => true)).reportRan = false := by
  refine ⟨?_, rfl, rfl⟩
  intro frd fetch fs minute hour sendOk
  show (reportStage (scanStage fs fetch).snapFile minute hour).ran = true ↔
    minute < 15
  rw [reportStage_ran]
  simp

/-- C2: the scan classifies a ticker as a riser exactly when its
percentage-change field is present and at least 5; a percentage of exactly 5
is included, one strictly below 5 (such as 4999/1000) is excluded, and an
absent percentage is excluded. -/
theorem c2_riser_threshold :
    (∀ (T : Tickers) (s : String),
        s ∈ risersOf T ↔ ∃ p : Option ℚ, (s, p) ∈ T ∧ isRiser p = true) ∧
    (∀ q : ℚ, isRiser (some q) = decide (5 ≤ q)) ∧
    isRiser none = false ∧
    isRiser (some 5) = true ∧
    isRiser (some (4999 / 1000)) = false := by
  refine ⟨?_, fun q => rfl, rfl, rfl, ?_⟩
  · intro T s
    unfold risersOf
    simp only [List.mem_toFinset, List.mem_map, List.mem_filter]
    constructor
    · rintro ⟨⟨a, b⟩, ⟨hmem, hr⟩, hfst⟩
      subst hfst
      exact ⟨b, hmem, hr⟩
    · rintro ⟨p, hmem, hr⟩
      exact ⟨(s, p), ⟨hmem, hr⟩, rfl⟩
  · simp only [isRiser, decide_eq_false_iff_not]
    norm_num

/-- C3: the scan's updated snapshot is the previous snapshot united with the
newly-detected set, the newly-detected set is exactly the risers absent from
the previous snapshot, and the previous snapshot is contained in the updated
one. -/
theorem c3_scan_union_monotone (prev : Finset String) (T : Tickers) :
    (scanSets prev T).1 = prev ∪ (scanSets prev T).2 ∧
    (scanSets prev T).2 = risersOf T \ prev ∧
    prev ⊆ (scanSets prev T).1 := by
  rw [scanSets_eq]
  exact ⟨by simp [Finset.union_sdiff_self_eq_union], rfl,
    Finset.subset_union_left⟩

/-- C6: scanning the same tickers twice, the second scan starting from the
snapshot the first produced, leaves the snapshot unchanged and detects
nothing new. -/
theorem c6_scan_idempotent (prev : Finset String) (T : Tickers) :
    scanSets (scanSets prev T).1 T = ((scanSets prev T).1, ∅) := by
  have h := scanSets_eq prev T
  rw [h, scanSets_eq]
  simp [Finset.union_assoc, Finset.sdiff_eq_empty_iff_subset]

/-- C4 counterexample: load_snapshot does not return normally for every file
state.  A file holding valid JSON that is not iterable (for instance the
content `42`) makes `set(json.load(f))` raise `TypeError`, and a file whose
bytes are not UTF-8 makes the read raise `UnicodeDecodeError`; neither is
named in `except (json.JSONDecodeError, IOError)`, so both propagate to the
caller. -/
theorem c4_load_raises_counterexample :
    load_snapshot FileState.jsonNonIterable =
      LoadOutcome.raised PyExc.TypeError ∧
    load_snapshot FileState.invalidUtf8 =
      LoadOutcome.raised PyExc.UnicodeDecodeError ∧
    ¬ (∀ fs : FileState, ∃ s : Finset String,
        load_snapshot fs = LoadOutcome.ok s) := by
  refine ⟨rfl, rfl, fun h => ?_⟩
  rcases h FileState.jsonNonIterable with ⟨s, hs⟩
  exact LoadOutcome.noConfusion hs

/-- C4 amended: load_snapshot returns the empty set when the file is absent,
and when the read raises IOError or the content fails JSON parsing it logs
the failure and returns the empty set; for a JSON array of strings it returns
that array's set of elements; but it raises to the caller when the content is
valid JSON that is not iterable (TypeError) or is not decodable as UTF-8
(UnicodeDecodeError), since the handler names only JSONDecodeError and
IOError. -/
theorem c4_load_amended :
    load_snapshot FileState.absent = LoadOutcome.ok ∅ ∧
    load_snapshot FileState.ioError = LoadOutcome.ok ∅ ∧
    load_snapshot FileState.invalidJson = LoadOutcome.ok ∅ ∧
    (∀ l : List String,
      load_snapshot (FileState.jsonArray l) = LoadOutcome.ok l.toFinset) ∧
    load_snapshot_logs FileState.ioError =
      ["스냅샷 파일 로딩 실패: " ++ excMsg PyExc.IOError] ∧
    load_snapshot_logs FileState.invalidJson =
      ["스냅샷 파일 로딩 실패: " ++ excMsg PyExc.JSONDecodeError] ∧
    load_snapshot FileState.jsonNonIterable =
      LoadOutcome.raised PyExc.TypeError ∧
    load_snapshot FileState.invalidUtf8 =
      LoadOutcome.raised PyExc.UnicodeDecodeError :=
  ⟨rfl, rfl, rfl, fun _ => rfl, rfl, rfl, rfl, rfl⟩

/-- C5: saving any enumeration of a finite set of symbol strings to the
snapshot file and loading it back yields exactly that set. -/
theorem c5_save_load_roundtrip (X : Finset String) (l : List String)
    (h : l.toFinset = X) :
    load_snapshot (save_snapshot l) = LoadOutcome.ok X := by
  subst h
  rfl

/-- C5 witness: the round trip at the concrete set containing BTC/KRW and
ETH/KRW. -/
theorem c5_save_load_roundtrip_witness :
    (["BTC/KRW", "ETH/KRW"].toFinset =
      ({"BTC/KRW", "ETH/KRW"} : Finset String)) ∧
    load_snapshot (save_snapshot ["BTC/KRW", "ETH/KRW"]) =
      LoadOutcome.ok {"BTC/KRW", "ETH/KRW"} :=
  ⟨rfl, c5_save_load_roundtrip {"BTC/KRW", "ETH/KRW"} ["BTC/KRW", "ETH/KRW"] rfl⟩

/-- C7: a scan in which no new symbol is detected performs no write and
leaves the snapshot file (content or absence) exactly as it was. -/
theorem c7_no_detection_no_write (fs : FileState) (T : Tickers)
    (prev : Finset String) (hload : load_snapshot fs = LoadOutcome.ok prev)
    (hnew : (scanSets prev T).2 = ∅) :
    scanStage fs (FetchOutcome.ok T) =
      ⟨fs, [], false, load_snapshot_logs fs⟩ := by
  unfold scanStage
  rw [hload]
  simp [hnew]

/-- C7 witness: with an absent snapshot file and a single below-threshold
ticker, the scan stage writes nothing and leaves the file absent. -/
theorem c7_no_detection_no_write_witness :
    load_snapshot FileState.absent = LoadOutcome.ok ∅ ∧
    (scanSets ∅ [("BBB/KRW", some 3)]).2 = ∅ ∧
    scanStage FileState.absent (FetchOutcome.ok [("BBB/KRW", some 3)]) =
      ⟨FileState.absent, [], false, []⟩ :=
  ⟨rfl, rfl, c7_no_detection_no_write FileState.absent [("BBB/KRW", some 3)] ∅ rfl rfl⟩

/-- C8: on a reporting invocation whose reloaded snapshot is non-empty, the
report message is composed and the send attempted, and the persisted snapshot
is reset to the empty array — for every delivery outcome `sendOk`, so a send
failure does not prevent the reset. -/
theorem c8_reset_regardless_of_send (frd : Bool) (fetch : FetchOutcome)
    (fs : FileState) (minute hour : Nat) (sendOk : Nat → Bool)
    (snap : Finset String) (hmin : minute < 15)
    (hload : load_snapshot (scanStage fs fetch).snapFile = LoadOutcome.ok snap)
    (hne : snap ≠ ∅) :
    (mainRun frd fetch fs minute hour sendOk).snapFile = save_snapshot [] ∧
    load_snapshot (mainRun frd fetch fs minute hour sendOk).snapFile =
      LoadOutcome.ok ∅ ∧
    reportMessage hour snap ∈ (mainRun frd fetch fs minute hour sendOk).sent ∧
    (mainRun frd fetch fs minute hour sendOk).reportWrote = true ∧
    (mainRun frd fetch fs minute hour sendOk).crashed = false := by
  have hr : reportStage (scanStage fs fetch).snapFile minute hour =
      ⟨save_snapshot [], [reportMessage hour snap], true, true, false⟩ := by
    unfold reportStage
    rw [if_pos hmin, hload]
    simp [hne]
  refine ⟨?_, ?_, ?_, ?_, ?_⟩
  · show (reportStage (scanStage fs fetch).snapFile minute hour).snapFile = _
    rw [hr]
  · show load_snapshot
      (reportStage (scanStage fs fetch).snapFile minute hour).snapFile = _
    rw [hr]
    rfl
  · show reportMessage hour snap ∈
      (if frd then ([] : List String) else [welcomeMessage]) ++
        (scanStage fs fetch).sent ++
        (reportStage (scanStage fs fetch).snapFile minute hour).sent
    rw [hr]
    simp
  · show (reportStage (scanStage fs fetch).snapFile minute hour).wrote = true
    rw [hr]
  · show (reportStage (scanStage fs fetch).snapFile minute hour).crashed = false
    rw [hr]

/-- C8 witness: minute 10, one riser detected and persisted by the scan,
every send failing; the snapshot file still ends reset to the empty array. -/
theorem c8_reset_regardless_of_send_witness :
    10 < 15 ∧
    load_snapshot (scanStage FileState.absent
        (FetchOutcome.ok [("AAA/KRW", some 6)])).snapFile =
      LoadOutcome.ok {"AAA/KRW"} ∧
    ({"AAA/KRW"} : Finset String) ≠ ∅ ∧
    ((mainRun true (FetchOutcome.ok [("AAA/KRW", some 6)]) FileState.absent
        10 3 (fun _ => false)).snapFile = save_snapshot [] ∧
      load_snapshot (mainRun true (FetchOutcome.ok [("AAA/KRW", some 6)])
          FileState.absent 10 3 (fun _ => false)).snapFile =
        LoadOutcome.ok ∅ ∧
      reportMessage 3 {"AAA/KRW"} ∈
        (mainRun true (FetchOutcome.ok [("AAA/KRW", some 6)]) FileState.absent
          10 3 (fun _ => false)).sent ∧
      (mainRun true (FetchOutcome.ok [("AAA/KRW", some 6)]) FileState.absent
          10 3 (fun _ => false)).reportWrote = true ∧
      (mainRun true (FetchOutcome.ok [("AAA/KRW", some 6)]) FileState.absent
          10 3 (fun _ => false)).crashed = false) := by
  have hload : load_snapshot (scanStage FileState.absent
      (FetchOutcome.ok [("AAA/KRW", some 6)])).snapFile =
      LoadOutcome.ok {"AAA/KRW"} := by
    have h : scanSets ∅ [("AAA/KRW", some 6)] = ({"AAA/KRW"}, {"AAA/KRW"}) := rfl
    simp [scanStage, load_snapshot, openAndJsonLoad, load_snapshot_logs, h,
      save_snapshot, Finset.sort_singleton]
    rfl
  have hne : ({"AAA/KRW"} : Finset String) ≠ ∅ := by decide
  exact ⟨by decide, hload, hne,
    c8_reset_regardless_of_send true (FetchOutcome.ok [("AAA/KRW", some 6)])
      FileState.absent 10 3 (fun _ => false) {"AAA/KRW"} (by decide) hload hne⟩

/-- C9: a fetch failure aborts the scan without touching the snapshot file,
emits the error log line, sends the alert carrying the error description, and
the reporting stage still runs (on the unchanged file) exactly when the
minute is below 15. -/
theorem c9_fetch_error_handling (frd : Bool) (fs : FileState)
    (minute hour : Nat) (sendOk : Nat → Bool) (m : String) :
    (mainRun frd (FetchOutcome.err m) fs minute hour sendOk).scanWrote =
      false ∧
    scanStage fs (FetchOutcome.err m) =
      ⟨fs, [scanAlert m], false, [scanErrLog m]⟩ ∧
    scanAlert m ∈ (mainRun frd (FetchOutcome.err m) fs minute hour sendOk).sent ∧
    scanErrLog m ∈
      (mainRun frd (FetchOutcome.err m) fs minute hour sendOk).errLogs ∧
    (mainRun frd (FetchOutcome.err m) fs minute hour sendOk).reportRan =
      decide (minute < 15) ∧
    (mainRun frd (FetchOutcome.err m) fs minute hour sendOk).snapFile =
      (reportStage fs minute hour).snapFile ∧
    (mainRun frd (FetchOutcome.err m) fs minute hour sendOk).reportWrote =
      (reportStage fs minute hour).wrote := by
  refine ⟨rfl, rfl, ?_, ?_, ?_, rfl, rfl⟩
  · show scanAlert m ∈
      (if frd then ([] : List String) else [welcomeMessage]) ++ [scanAlert m] ++
        (reportStage fs minute hour).sent
    simp
  · show scanErrLog m ∈ [scanErrLog m]
    simp
  · show (reportStage fs minute hour).ran = decide (minute < 15)
    exact reportStage_ran fs minute hour

theorem scanAlert_ne_welcome (x : String) : scanAlert x ≠ welcomeMessage := by
  intro h
  have h1 : (scanAlert x).data.head? = some '오' := rfl
  have h2 : welcomeMessage.data.head? = some '🎉' := rfl
  rw [h, h2] at h1
  exact absurd h1 (by decide)

theorem reportMessage_ne_welcome (hour : Nat) (snap : Finset String) :
    reportMessage hour snap ≠ welcomeMessage := by
  intro h
  have h1 : (reportMessage hour snap).data.head? = some '지' := rfl
  have h2 : welcomeMessage.data.head? = some '🎉' := rfl
  rw [h, h2] at h1
  exact absurd h1 (by decide)

theorem scanStage_sent_shape (fs : FileState) (fetch : FetchOutcome)
    (msg : String) (h : msg ∈ (scanStage fs fetch).sent) :
    ∃ x, msg = scanAlert x := by
  cases fetch with
  | err m => exact ⟨m, by simpa [scanStage] using h⟩
  | ok T =>
    unfold scanStage at h
    cases hl : load_snapshot fs with
    | raised e =>
      rw [hl] at h
      exact ⟨excMsg e, by simpa using h⟩
    | ok prev =>
      rw [hl] at h
      by_cases hn : (scanSets prev T).2 = ∅
      · simp [hn] at h
      · simp [hn] at h

theorem reportStage_sent_shape (fs : FileState) (minute hour : Nat)
    (msg : String) (h : msg ∈ (reportStage fs minute hour).sent) :
    ∃ snap : Finset String, msg = reportMessage hour snap := by
  unfold reportStage at h
  by_cases hm : minute < 15
  · rw [if_pos hm] at h
    cases hl : load_snapshot fs with
    | raised e =>
      rw [hl] at h
      simp at h
    | ok snap =>
      rw [hl] at h
      by_cases hs : snap = ∅
      · simp [hs] at h
      · simp [hs] at h
        exact ⟨snap, h⟩
  · rw [if_neg hm] at h
    simp at h

/-- C10: when the marker file is absent, the invocation sends the welcome
message first (before any scan or report message) and creates the marker, so
`firstRunDone` ends true; when the marker is present, the welcome message is
never among the messages sent. -/
theorem c10_first_run_welcome (fetch : FetchOutcome) (fs : FileState)
    (minute hour : Nat) (sendOk : Nat → Bool) :
    (mainRun false fetch fs minute hour sendOk).sent.head? =
      some welcomeMessage ∧
    (mainRun false fetch fs minute hour sendOk).firstRunDone = true ∧
    (mainRun true fetch fs minute hour sendOk).firstRunDone = true ∧
    welcomeMessage ∉ (mainRun true fetch fs minute hour sendOk).sent := by
  refine ⟨rfl, rfl, rfl, ?_⟩
  intro hmem
  have hsplit : welcomeMessage ∈ (scanStage fs fetch).sent ∨
      welcomeMessage ∈
        (reportStage (scanStage fs fetch).snapFile minute hour).sent := by
    have h' : welcomeMessage ∈
        ([] : List String) ++ (scanStage fs fetch).sent ++
          (reportStage (scanStage fs fetch).snapFile minute hour).sent := hmem
    simpa using h'
  rcases hsplit with h | h
  · obtain ⟨x, hx⟩ := scanStage_sent_shape _ _ _ h
    exact scanAlert_ne_welcome x hx.symm
  · obtain ⟨snap, hsnap⟩ := reportStage_sent_shape _ _ _ _ h
    exact reportMessage_ne_welcome hour snap hsnap.symm

/-- C10 witness: at a concrete invocation, a first run leads with the welcome
message and a later run sends no welcome message. -/
theorem c10_first_run_welcome_witness :
    (mainRun false (FetchOutcome.ok []) FileState.absent 20 1
        (fun _ => true)).sent.head? = some welcomeMessage ∧
    welcomeMessage ∉ (mainRun true (FetchOutcome.ok []) FileState.absent 20 1
        (fun _ => true)).sent :=
  ⟨(c10_first_run_welcome (FetchOutcome.ok []) FileState.absent 20 1
      (fun _ => true)).1,
   (c10_first_run_welcome (FetchOutcome.ok []) FileState.absent 20 1
      (fun _ => true)).2.2.2⟩

end Monitor
